import Mathlib

/-!
Verification development for the Staffly user-management application.

The application is shallowly embedded: each Python function relevant to the
claims is translated into a Lean definition over an explicit store of user
records (the relational table), explicit HTTP request data, and explicit
responses.  Timestamps are natural numbers counting seconds.  The ORM-side
`updated_at` auto field is not embedded (it is written by the framework on
every save and no claim mentions it).
-/

namespace Staffly

/-- Python str.startswith, over explicit character lists (pattern, then text). -/
def listStarts : List Char → List Char → Bool
  | [], _ => true
  | _ :: _, [] => false
  | p :: ps, c :: cs => p == c && listStarts ps cs

/-- Substring test (needle, haystack), the semantics of SQL LIKE with wildcards. -/
def listHas : List Char → List Char → Bool
  | needle, [] => listStarts needle []
  | needle, c :: cs => listStarts needle (c :: cs) || listHas needle cs

/-- ASCII lowercasing, the case folding SQLite applies to LIKE comparisons. -/
def lowerList (cs : List Char) : List Char := cs.map Char.toLower

/-- Django icontains: case-insensitive substring match. -/
def icontains (needle hay : String) : Bool :=
  listHas (lowerList needle.toList) (lowerList hay.toList)

/-- Python str.startswith on strings, used by the middleware path checks. -/
def startswith (s pat : String) : Bool := listStarts pat.toList s.toList

/-- Three-way comparison on naturals (timestamps and primary keys). -/
def natCmp (a b : Nat) : Ordering :=
  if a < b then Ordering.lt else if b < a then Ordering.gt else Ordering.eq

/-- Three-way comparison on booleans, false before true as in SQL. -/
def boolCmp (a b : Bool) : Ordering :=
  if a == b then Ordering.eq else if a then Ordering.gt else Ordering.lt

/-- Three-way comparison on nullable timestamps, NULLs first as in SQLite. -/
def optNatCmp : Option Nat → Option Nat → Ordering
  | none, none => Ordering.eq
  | none, some _ => Ordering.lt
  | some _, none => Ordering.gt
  | some a, some b => natCmp a b

/-- Lexicographic comparison on strings (SQLite BINARY collation). -/
def strCmp (a b : String) : Ordering := compare a b

/-- Three-way comparison on nullable strings, NULLs first as in SQLite. -/
def optStrCmp : Option String → Option String → Ordering
  | none, none => Ordering.eq
  | none, some _ => Ordering.lt
  | some _, none => Ordering.gt
  | some a, some b => strCmp a b

/-- A row of the accounts_user table (accounts/models.py, class User).
The role column is a CharField holding one of ADMIN, STAFF, USER; the
password column stands for the opaque salted hash (check_password is
equality on it). -/
structure User where
  id : Nat
  email : String
  password : String
  firstName : String
  lastName : String
  role : String
  isActive : Bool
  isStaff : Bool
  isSuperuser : Bool
  phone : String
  department : String
  jobTitle : String
  bio : String
  profilePicture : Option String
  dateJoined : Nat
  lastLogin : Option Nat
deriving DecidableEq, Repr

/-- The database table of users. -/
abbrev Store := List User

/-- request.user: either AnonymousUser or an authenticated user record. -/
inductive Requester
  | anonymous
  | auth (u : User)
deriving DecidableEq, Repr

/-- The parts of a Django HttpRequest the embedded views read.  getParams and
postParams model request.GET and request.POST (request.FILES is merged into
postParams); now is the clock value a view reads through timezone.now(). -/
structure HttpRequest where
  requester : Requester
  method : String
  path : String
  getParams : List (String × String)
  postParams : List (String × String)
  now : Nat
deriving DecidableEq, Repr

/-- Message level of the messages framework. -/
inductive MsgLevel
  | error
  | success
  | info
deriving DecidableEq, Repr

/-- A message attached to a response via django.contrib.messages. -/
structure Msg where
  level : MsgLevel
  text : String
deriving DecidableEq, Repr

/-- QueryDict.get: first value bound to the key, if any. -/
def qget (params : List (String × String)) (name : String) : Option String :=
  (params.find? (fun kv => kv.fst == name)).map (·.snd)

/-- User.objects.get(pk=pk) as used through get_object_or_404. -/
def lookupUser (store : Store) (pk : Nat) : Option User :=
  store.find? (fun u => u.id == pk)

/-- instance.save(): rewrite the row(s) with the instance's primary key. -/
def saveUser (store : Store) (u : User) : Store :=
  store.map (fun v => if v.id = u.id then u else v)

/-- One page produced by Paginator.get_page. -/
structure PageObj where
  objectList : List User
  number : Nat
deriving DecidableEq, Repr

/-- Template context built by the user_list view (accounts/views.py):
allUsers is the paginator's full object list (filtered and ordered),
pageObj the requested page, and the three counts are the unfiltered
aggregate counts the view computes. -/
structure UserListContext where
  allUsers : List User
  pageObj : PageObj
  totalUsers : Nat
  activeUsers : Nat
  inactiveUsers : Nat
deriving DecidableEq, Repr

/-- The response of an embedded view: the login redirect issued by
login_required (carrying the originally requested path as the post-login
destination), a redirect to a named URL with the messages attached on the
way, a template render, a 404, a 405 from require_POST, or a server error
carrying a raised exception's message (FieldError from order_by). -/
inductive Response
  | redirectToLogin (next : String)
  | redirect (target : String) (msgs : List Msg)
  | render (template : String)
  | renderUserList (ctx : UserListContext)
  | notFound
  | methodNotAllowed
  | serverError (e : String)
deriving DecidableEq, Repr

/-- A view over the store: request in, updated store and response out. -/
abbrev ViewFn := HttpRequest → Store → Store × Response

def mError (s : String) : Msg := ⟨MsgLevel.error, s⟩

def mSuccess (s : String) : Msg := ⟨MsgLevel.success, s⟩

def mInfo (s : String) : Msg := ⟨MsgLevel.info, s⟩

/-- login_required (django.contrib.auth.decorators): anonymous callers are
redirected to the login flow with the requested path preserved in the next
parameter; authenticated callers reach the view, which reads request.user
(here passed explicitly). -/
def login_required (view : User → ViewFn) : ViewFn := fun req store =>
  match req.requester with
  | .anonymous => (store, .redirectToLogin req.path)
  | .auth u => view u req store

/-- admin_required (accounts/decorators.py): login_required, then the view
runs only when request.user.role == ADMIN; otherwise an error message and a
redirect to the dashboard router. -/
def admin_required (view : User → ViewFn) : ViewFn := fun req store =>
  match req.requester with
  | .anonymous => (store, .redirectToLogin req.path)
  | .auth u =>
    if u.role = "ADMIN" then view u req store
    else (store, .redirect "dashboard:router" [mError "Administrator access required."])

/-- staff_required (accounts/decorators.py): the view runs only when
request.user.role is ADMIN or STAFF. -/
def staff_required (view : User → ViewFn) : ViewFn := fun req store =>
  match req.requester with
  | .anonymous => (store, .redirectToLogin req.path)
  | .auth u =>
    if u.role = "ADMIN" ∨ u.role = "STAFF" then view u req store
    else (store, .redirect "dashboard:router" [mError "Staff access required."])

/-- require_POST (django.views.decorators.http): non-POST methods get 405. -/
def require_POST (view : ViewFn) : ViewFn := fun req store =>
  if req.method = "POST" then view req store else (store, .methodNotAllowed)

/-- Outcome of RoleBasedAccessMiddleware on one request: hand the request on
to the next layer, or redirect to the dashboard router with an error. -/
inductive MwDecision
  | forward
  | denyToRouter (msg : String)
deriving DecidableEq, Repr

/-- URL prefixes the middleware treats as admin-only (accounts/middleware.py). -/
def ADMIN_ONLY_PATTERNS : List String :=
  ["/users/", "/users/create/", "/users/delete/", "/analytics/"]

/-- URL prefixes the middleware treats as staff-or-admin. -/
def STAFF_PATTERNS : List String := ["/staff/"]

/-- URL prefixes the middleware skips entirely. -/
def PUBLIC_PATTERNS : List String :=
  ["/accounts/login/", "/accounts/logout/", "/static/", "/media/", "/admin/"]

/-- RoleBasedAccessMiddleware.__call__ (accounts/middleware.py).  The Python
loops return the redirect at the first matching pattern whose role test
fails and otherwise fall through, which is exactly: deny when some admin
pattern is a prefix of the path and the role is not ADMIN, else deny when
some staff pattern matches and the role is neither ADMIN nor STAFF, else
forward. -/
def roleBasedAccessMiddleware (req : HttpRequest) : MwDecision :=
  if PUBLIC_PATTERNS.any (fun p => startswith req.path p) then .forward
  else
    match req.requester with
    | .anonymous => .forward
    | .auth u =>
      if ADMIN_ONLY_PATTERNS.any (fun p => startswith req.path p) && !(u.role == "ADMIN") then
        .denyToRouter "Administrator access required."
      else if STAFF_PATTERNS.any (fun p => startswith req.path p)
          && !(u.role == "ADMIN" || u.role == "STAFF") then
        .denyToRouter "Staff access required."
      else .forward

/-- UpdateLastLoginMiddleware (accounts/middleware.py): on an authenticated
request at time now (seconds), the stored last_login is set to now when it
is absent or when now - last_login exceeds one hour (3600 s), and is left
unchanged otherwise. -/
def update_last_login (now : Nat) (lastLogin : Option Nat) : Option Nat :=
  match lastLogin with
  | some t => if now - t > 3600 then some now else some t
  | none => some now

/-- django.contrib.auth.authenticate with the default ModelBackend: look the
user up by the USERNAME_FIELD (exact email), check the password, and reject
inactive users (user_can_authenticate). -/
def authenticate (store : Store) (email password : String) : Option User :=
  match store.find? (fun u => u.email == email) with
  | none => none
  | some u => if u.password = password ∧ u.isActive then some u else none

/-- Outcome of LoginForm.clean (accounts/forms.py). -/
inductive LoginOutcome
  | invalidCredentials
  | accountDeactivated
  | ok (u : User)
deriving DecidableEq, Repr

/-- LoginForm.clean: authenticate; None raises Invalid email or password;
an inactive result raises the deactivated message (unreachable with the
default backend, kept as written); otherwise the user is returned. -/
def loginFormClean (store : Store) (email password : String) : LoginOutcome :=
  match authenticate store email password with
  | none => .invalidCredentials
  | some u => if u.isActive then .ok u else .accountDeactivated

/-- Result of a POST to login_view: the session (bound user id) if one was
created, whether the session expires when the browser closes, and the
redirect target (none re-renders the login form with field errors). -/
structure LoginResult where
  session : Option Nat
  expireAtBrowserClose : Bool
  redirectTo : Option String
deriving DecidableEq, Repr

/-- login_view on POST (accounts/views.py): a valid form logs the user in,
sets session expiry from remember_me, and redirects to the next URL when one
was given, else to the dashboard router; an invalid form creates no session. -/
def login_view_post (store : Store) (email password : String) (rememberMe : Bool)
    (nextUrl : Option String) : LoginResult :=
  match loginFormClean store email password with
  | .ok u =>
    { session := some u.id
      expireAtBrowserClose := !rememberMe
      redirectTo := some (nextUrl.getD "dashboard:router") }
  | _ => { session := none, expireAtBrowserClose := false, redirectTo := none }

/-- dashboard_router (dashboard/views.py): role to landing dashboard. -/
def dashboard_router (u : User) : String :=
  if u.role = "ADMIN" then "dashboard:admin"
  else if u.role = "STAFF" then "dashboard:staff"
  else "dashboard:user"

/-- Python whitespace test used by str.strip. -/
def isSpaceChar (c : Char) : Bool :=
  c == ' ' || c == '\t' || c == '\n' || c == '\r' || c == '\x0b' || c == '\x0c'

/-- Python str.strip: drop whitespace from both ends. -/
def stripChars (cs : List Char) : List Char :=
  ((cs.dropWhile isSpaceChar).reverse.dropWhile isSpaceChar).reverse

/-- Split a character list at its last '@': the part before it and the part
after it, or none when no '@' occurs (Python str.rsplit with maxsplit 1). -/
def rsplitLastAt : List Char → Option (List Char × List Char)
  | [] => none
  | c :: cs =>
    match rsplitLastAt cs with
    | some (n, d) => some (c :: n, d)
    | none => if c = '@' then some ([], cs) else none

/-- BaseUserManager.normalize_email: strip the address, lowercase only the
domain part after the last '@'; an address without '@' is returned as given. -/
def normalize_email (email : String) : String :=
  match rsplitLastAt (stripChars email.toList) with
  | some (name, domain) => String.mk (name ++ '@' :: lowerList domain)
  | none => email

/-- Fresh surrogate key for an inserted row (autoincrement). -/
def nextId (store : Store) : Nat := (store.map (·.id)).foldr max 0 + 1

/-- UserManager.create_user (accounts/managers.py): reject an empty email,
normalize the email, default role USER and is_active True, set the password
and save; the save fails on the table's unique email constraint when the
normalized email is already stored.  The extra_fields actually passed by
this repository (role, is_active) are explicit optional arguments. -/
def create_user (store : Store) (now : Nat) (email : String) (password : String)
    (role : Option String) (isActive : Option Bool) : Except String (Store × User) :=
  if email = "" then .error "The Email field must be set"
  else
    let em := normalize_email email
    if store.any (fun v => v.email == em) then
      .error ("UNIQUE constraint failed: accounts_user.email " ++ em)
    else
      let u : User :=
        { id := nextId store, email := em, password := password
          firstName := "", lastName := "", role := role.getD "USER"
          isActive := isActive.getD true, isStaff := false, isSuperuser := false
          phone := "", department := "", jobTitle := "", bio := ""
          profilePicture := none, dateJoined := now, lastLogin := none }
      .ok (store ++ [u], u)

/-- Django CheckboxInput.value_from_datadict: an absent key is False, the
strings false, False and 0 are False, anything else present is True. -/
def checkboxValue (post : List (String × String)) (name : String) : Bool :=
  match qget post name with
  | none => false
  | some v => !(v == "false" || v == "False" || v == "0")

/-- Form field value of a CharField: the posted value, empty when absent. -/
def charField (post : List (String × String)) (name : String) : String :=
  (qget post name).getD ""

/-- UserCreationForm.is_valid (accounts/forms.py): the model fields must
validate (email required and unique under the exact-match unique validator,
role one of the three choices, CharField length limits), the two passwords
must match and have at least 8 characters. -/
def userCreationForm_isValid (store : Store) (post : List (String × String)) : Bool :=
  let email := charField post "email"
  let p1 := charField post "password1"
  let p2 := charField post "password2"
  let role := charField post "role"
  decide (email ≠ "") && decide (email.length ≤ 254) &&
  store.all (fun v => v.email != email) &&
  decide (role = "ADMIN" ∨ role = "STAFF" ∨ role = "USER") &&
  decide ((charField post "first_name").length ≤ 150) &&
  decide ((charField post "last_name").length ≤ 150) &&
  decide ((charField post "department").length ≤ 100) &&
  decide ((charField post "job_title").length ≤ 100) &&
  decide (p1 = p2) && decide (8 ≤ p1.length)

/-- UserCreationForm.save: build the new row from the declared fields
(email, first_name, last_name, role, department, job_title, is_active),
set the password to password1, and insert. -/
def userCreationForm_save (store : Store) (now : Nat)
    (post : List (String × String)) : User :=
  { id := nextId store
    email := charField post "email"
    password := charField post "password1"
    firstName := charField post "first_name"
    lastName := charField post "last_name"
    role := charField post "role"
    isActive := checkboxValue post "is_active"
    isStaff := false, isSuperuser := false
    phone := "", department := charField post "department"
    jobTitle := charField post "job_title", bio := ""
    profilePicture := none, dateJoined := now, lastLogin := none }

/-- UserUpdateForm.is_valid (profile self-service form): only CharField
length limits can fail; the form declares no role or status field. -/
def userUpdateForm_isValid (post : List (String × String)) : Bool :=
  decide ((charField post "first_name").length ≤ 150) &&
  decide ((charField post "last_name").length ≤ 150) &&
  decide ((charField post "phone").length ≤ 20) &&
  decide ((charField post "department").length ≤ 100) &&
  decide ((charField post "job_title").length ≤ 100) &&
  decide ((charField post "bio").length ≤ 500)

/-- UserUpdateForm.save on an instance: assign exactly the declared fields
first_name, last_name, phone, department, job_title, bio, profile_picture;
an upload replaces the picture, no upload keeps the stored one.  Keys such
as role or is_active in the posted data are never read. -/
def userUpdateForm_save (post : List (String × String)) (u : User) : User :=
  { u with
    firstName := charField post "first_name"
    lastName := charField post "last_name"
    phone := charField post "phone"
    department := charField post "department"
    jobTitle := charField post "job_title"
    bio := charField post "bio"
    profilePicture :=
      match qget post "profile_picture" with
      | some p => some p
      | none => u.profilePicture }

/-- AdminUserUpdateForm.is_valid: email required and unique apart from the
edited instance (exact match), role one of the choices, length limits. -/
def adminUserUpdateForm_isValid (store : Store) (inst : User)
    (post : List (String × String)) : Bool :=
  let email := charField post "email"
  let role := charField post "role"
  decide (email ≠ "") && decide (email.length ≤ 254) &&
  store.all (fun v => decide (v.id = inst.id) || v.email != email) &&
  decide (role = "ADMIN" ∨ role = "STAFF" ∨ role = "USER") &&
  decide ((charField post "first_name").length ≤ 150) &&
  decide ((charField post "last_name").length ≤ 150) &&
  decide ((charField post "phone").length ≤ 20) &&
  decide ((charField post "department").length ≤ 100) &&
  decide ((charField post "job_title").length ≤ 100) &&
  decide ((charField post "bio").length ≤ 500)

/-- AdminUserUpdateForm.save on an instance: assign the declared fields
email, first_name, last_name, role, is_active, phone, department,
job_title, bio, profile_picture. -/
def adminUserUpdateForm_save (post : List (String × String)) (u : User) : User :=
  { u with
    email := charField post "email"
    firstName := charField post "first_name"
    lastName := charField post "last_name"
    role := charField post "role"
    isActive := checkboxValue post "is_active"
    phone := charField post "phone"
    department := charField post "department"
    jobTitle := charField post "job_title"
    bio := charField post "bio"
    profilePicture :=
      match qget post "profile_picture" with
      | some p => some p
      | none => u.profilePicture }

/-- Insert u before the first element x with le u x (insertion-sort step). -/
def insertLe (le : User → User → Bool) (u : User) : List User → List User
  | [] => [u]
  | x :: xs => if le u x then u :: x :: xs else x :: insertLe le u xs

/-- Insertion sort by a boolean ordering test. -/
def sortByLe (le : User → User → Bool) : List User → List User
  | [] => []
  | u :: us => insertLe le u (sortByLe le us)

/-- The sortable columns of the user table — every concrete column the
model carries (accounts/models.py plus password and last_login from
AbstractBaseUser and is_superuser from PermissionsMixin) — mapped to their
three-way row comparison; none for a name that is not a column (order_by
then raises FieldError).  The updated_at auto_now column is maintained by
the ORM on every write and is not carried in the embedded row, so ordering
by it leaves the relative order unspecified (all rows compare equal, a
stable no-op).  Relation lookups through the groups and user_permissions
many-to-many tables lie outside the embedded single-table store. -/
def fieldCmp (name : String) : Option (User → User → Ordering) :=
  if name = "id" ∨ name = "pk" then some (fun a b => natCmp a.id b.id)
  else if name = "email" then some (fun a b => strCmp a.email b.email)
  else if name = "password" then some (fun a b => strCmp a.password b.password)
  else if name = "first_name" then some (fun a b => strCmp a.firstName b.firstName)
  else if name = "last_name" then some (fun a b => strCmp a.lastName b.lastName)
  else if name = "role" then some (fun a b => strCmp a.role b.role)
  else if name = "is_active" then some (fun a b => boolCmp a.isActive b.isActive)
  else if name = "is_staff" then some (fun a b => boolCmp a.isStaff b.isStaff)
  else if name = "is_superuser" then some (fun a b => boolCmp a.isSuperuser b.isSuperuser)
  else if name = "phone" then some (fun a b => strCmp a.phone b.phone)
  else if name = "department" then some (fun a b => strCmp a.department b.department)
  else if name = "job_title" then some (fun a b => strCmp a.jobTitle b.jobTitle)
  else if name = "bio" then some (fun a b => strCmp a.bio b.bio)
  else if name = "profile_picture" then
    some (fun a b => optStrCmp a.profilePicture b.profilePicture)
  else if name = "date_joined" then some (fun a b => natCmp a.dateJoined b.dateJoined)
  else if name = "last_login" then some (fun a b => optNatCmp a.lastLogin b.lastLogin)
  else if name = "updated_at" then some (fun _ _ => Ordering.eq)
  else none

/-- QuerySet.order_by with one key.  The literal key '?' is checked before
sign handling, exactly as the ORM's add_ordering does, and asks for random
ordering: the program then returns an unspecified permutation, modelled
here as the unchanged order (one of its possible outcomes; no claim
constrains it).  Otherwise a leading '-' reverses the field order and an
unresolvable name raises FieldError, modelled as an error value. -/
def orderBy (ordering : String) (users : List User) : Except String (List User) :=
  if ordering = "?" then .ok users
  else
    let desc := startswith ordering "-"
    let fname := if desc then ordering.drop 1 else ordering
    match fieldCmp fname with
    | none => .error ("Cannot resolve keyword " ++ fname ++ " into field.")
    | some cmp =>
      let le : User → User → Bool := fun a b =>
        if desc then !(cmp a b == Ordering.lt) else !(cmp a b == Ordering.gt)
      .ok (sortByLe le users)

/-- Decimal digit value of a character. -/
def digitVal (c : Char) : Option Nat :=
  if '0' ≤ c ∧ c ≤ '9' then some (c.toNat - '0'.toNat) else none

/-- Accumulate decimal digits; any non-digit fails. -/
def parseDigitsAux (acc : Nat) : List Char → Option Nat
  | [] => some acc
  | c :: cs =>
    match digitVal c with
    | none => none
    | some d => parseDigitsAux (acc * 10 + d) cs

/-- Python int() on a string: optional sign followed by decimal digits
(ValueError, here none, otherwise), as Paginator.validate_number calls it. -/
def parseIntStr (s : String) : Option Int :=
  match s.toList with
  | [] => none
  | '-' :: [] => none
  | '-' :: c :: cs => (parseDigitsAux 0 (c :: cs)).map (fun n => -(n : Int))
  | '+' :: [] => none
  | '+' :: c :: cs => (parseDigitsAux 0 (c :: cs)).map (fun n => (n : Int))
  | c :: cs => (parseDigitsAux 0 (c :: cs)).map (fun n => (n : Int))

/-- Number of pages of a Paginator with allow_empty_first_page. -/
def numPages (perPage count : Nat) : Nat := max 1 ((count + perPage - 1) / perPage)

/-- Paginator(objects, perPage).get_page(pageParam): a missing or
non-integer parameter gives page 1, a number below 1 or beyond the last
page gives the last page; the page holds the corresponding slice. -/
def paginate (perPage : Nat) (pageParam : Option String) (objects : List User) : PageObj :=
  let np := numPages perPage objects.length
  let number : Nat :=
    match pageParam with
    | none => 1
    | some s =>
      match parseIntStr s with
      | none => 1
      | some n => if n < 1 then np else if (np : Int) < n then np else n.toNat
  { objectList := (objects.drop ((number - 1) * perPage)).take perPage
    number := number }

/-- The GET parameters the user_list view reads; none models an absent key. -/
structure UserListParams where
  search : Option String
  role : Option String
  status : Option String
  ordering : Option String
  page : Option String
deriving DecidableEq, Repr

/-- The row predicate of the search filter: the Q-expression
email icontains OR first_name icontains OR last_name icontains OR
department icontains. -/
def searchMatches (search : String) (u : User) : Bool :=
  icontains search u.email || icontains search u.firstName ||
  icontains search u.lastName || icontains search u.department

/-- First stage of the user_list query pipeline: the search filter, applied
only when the search parameter is a nonempty string. -/
def searchFiltered (store : Store) (p : UserListParams) : List User :=
  let search := p.search.getD ""
  if search ≠ "" then store.filter (fun u => searchMatches search u) else store

/-- Second stage: the role filter, applied only when nonempty. -/
def roleFiltered (store : Store) (p : UserListParams) : List User :=
  let role := p.role.getD ""
  if role ≠ "" then (searchFiltered store p).filter (fun u => u.role == role)
  else searchFiltered store p

/-- Third stage: the status filter, reacting only to the exact parameter
values active and inactive. -/
def afterFilters (store : Store) (p : UserListParams) : List User :=
  let status := p.status.getD ""
  if status = "active" then (roleFiltered store p).filter (fun u => u.isActive)
  else if status = "inactive" then (roleFiltered store p).filter (fun u => !u.isActive)
  else roleFiltered store p

/-- The query pipeline of user_list (accounts/views.py): search, role and
status filters, then order_by with the requested key (default -date_joined)
and pagination at 10 per page, next to the unfiltered aggregate counts. -/
def user_list_core (store : Store) (p : UserListParams) : Except String UserListContext :=
  match orderBy (p.ordering.getD "-date_joined") (afterFilters store p) with
  | .error e => .error e
  | .ok ordered =>
    .ok { allUsers := ordered
          pageObj := paginate 10 p.page ordered
          totalUsers := store.length
          activeUsers := (store.filter (fun u => u.isActive)).length
          inactiveUsers := (store.filter (fun u => !u.isActive)).length }

/-- Read the user_list GET parameters from a request. -/
def userListParamsOf (req : HttpRequest) : UserListParams :=
  { search := qget req.getParams "search"
    role := qget req.getParams "role"
    status := qget req.getParams "status"
    ordering := qget req.getParams "ordering"
    page := qget req.getParams "page" }

/-- Body of user_list once past the admin guard. -/
def user_list_inner : User → ViewFn := fun _actor req store =>
  match user_list_core store (userListParamsOf req) with
  | .error e => (store, .serverError e)
  | .ok ctx => (store, .renderUserList ctx)

/-- user_list: the admin_required wrapping of its body. -/
def user_list : ViewFn := admin_required user_list_inner

/-- Body of user_create once past the admin guard. -/
def user_create_inner : User → ViewFn := fun _actor req store =>
  if req.method = "POST" then
    if userCreationForm_isValid store req.postParams then
      let u := userCreationForm_save store req.now req.postParams
      (store ++ [u],
       .redirect "accounts:user_list" [mSuccess ("User " ++ u.email ++ " created successfully.")])
    else (store, .render "accounts/user_form.html")
  else (store, .render "accounts/user_form.html")

/-- user_create: the admin_required wrapping of its body. -/
def user_create : ViewFn := admin_required user_create_inner

/-- Body of user_detail once past the admin guard. -/
def user_detail_inner (pk : Nat) : User → ViewFn := fun _actor _req store =>
  match lookupUser store pk with
  | none => (store, .notFound)
  | some _ => (store, .render "accounts/user_detail.html")

/-- user_detail: the admin_required wrapping of its body. -/
def user_detail (pk : Nat) : ViewFn := admin_required (user_detail_inner pk)

/-- Body of user_update once past the admin guard: fetch the target (404
when absent), and on a POST with a valid AdminUserUpdateForm save it and
redirect with a success message naming the saved email; there is no
comparison of the target against request.user. -/
def user_update_inner (pk : Nat) : User → ViewFn := fun _actor req store =>
  match lookupUser store pk with
  | none => (store, .notFound)
  | some u =>
    if req.method = "POST" then
      if adminUserUpdateForm_isValid store u req.postParams then
        let saved := adminUserUpdateForm_save req.postParams u
        (saveUser store saved,
         .redirect "accounts:user_list"
           [mSuccess ("User " ++ saved.email ++ " updated successfully.")])
      else (store, .render "accounts/user_form.html")
    else (store, .render "accounts/user_form.html")

/-- user_update: the admin_required wrapping of its body. -/
def user_update (pk : Nat) : ViewFn := admin_required (user_update_inner pk)

/-- Body of user_delete once past both guards: fetch the target (404 when
absent); a target equal to request.user (model instance equality is
primary-key equality) is rejected with an error message, otherwise the row
is deleted. -/
def user_delete_inner (pk : Nat) (actor : User) : ViewFn := fun _req store =>
  match lookupUser store pk with
  | none => (store, .notFound)
  | some u =>
    if u.id = actor.id then
      (store, .redirect "accounts:user_list" [mError "You cannot delete your own account."])
    else
      (store.filter (fun v => v.id != u.id),
       .redirect "accounts:user_list" [mSuccess ("User " ++ u.email ++ " deleted successfully.")])

/-- user_delete: admin_required around require_POST around the body. -/
def user_delete (pk : Nat) : ViewFn :=
  admin_required (fun actor => require_POST (user_delete_inner pk actor))

/-- Body of user_toggle_status once past both guards: fetch the target (404
when absent); a target equal to request.user is rejected with an error
message, otherwise is_active is negated and the row saved. -/
def user_toggle_status_inner (pk : Nat) (actor : User) : ViewFn := fun _req store =>
  match lookupUser store pk with
  | none => (store, .notFound)
  | some u =>
    if u.id = actor.id then
      (store, .redirect "accounts:user_list" [mError "You cannot deactivate your own account."])
    else
      let u' := { u with isActive := !u.isActive }
      let word := if u'.isActive then "activated" else "deactivated"
      (saveUser store u',
       .redirect "accounts:user_list"
         [mSuccess ("User " ++ u'.email ++ " has been " ++ word ++ ".")])

/-- user_toggle_status: admin_required around require_POST around the body. -/
def user_toggle_status (pk : Nat) : ViewFn :=
  admin_required (fun actor => require_POST (user_toggle_status_inner pk actor))

/-- Body of profile_update once past login_required: on a POST with a valid
UserUpdateForm, save the form bound to request.user and redirect to the
profile page; otherwise re-render the edit form. -/
def profile_update_inner (actor : User) : ViewFn := fun req store =>
  if req.method = "POST" then
    if userUpdateForm_isValid req.postParams then
      (saveUser store (userUpdateForm_save req.postParams actor),
       .redirect "accounts:profile" [mSuccess "Your profile has been updated successfully."])
    else (store, .render "accounts/profile_edit.html")
  else (store, .render "accounts/profile_edit.html")

/-- profile_update: the login_required wrapping of its body. -/
def profile_update : ViewFn := login_required profile_update_inner

/-- staff_dashboard (dashboard/views.py), reduced to its guard and render. -/
def staff_dashboard : ViewFn :=
  staff_required (fun _actor _req store => (store, .render "dashboard/staff_dashboard.html"))

/-- Concrete active administrator used in witnesses. -/
def adminUser0 : User :=
  { id := 1, email := "admin@example.com", password := "adminpass"
    firstName := "Ada", lastName := "Admin", role := "ADMIN"
    isActive := true, isStaff := true, isSuperuser := true
    phone := "", department := "HQ", jobTitle := "Manager", bio := ""
    profilePicture := none, dateJoined := 1000, lastLogin := none }

/-- Concrete active staff member used in witnesses. -/
def staffUser0 : User :=
  { id := 2, email := "staff@example.com", password := "staffpass"
    firstName := "Sam", lastName := "Staff", role := "STAFF"
    isActive := true, isStaff := false, isSuperuser := false
    phone := "", department := "Ops", jobTitle := "Operator", bio := ""
    profilePicture := none, dateJoined := 2000, lastLogin := none }

/-- Concrete active regular user used in witnesses. -/
def plainUser0 : User :=
  { id := 3, email := "user@example.com", password := "userpass"
    firstName := "Uma", lastName := "User", role := "USER"
    isActive := true, isStaff := false, isSuperuser := false
    phone := "", department := "Ops", jobTitle := "Clerk", bio := ""
    profilePicture := none, dateJoined := 3000, lastLogin := none }

/-- A GET request for the user directory from the staff member. -/
def reqStaffUserList : HttpRequest :=
  { requester := .auth staffUser0, method := "GET", path := "/accounts/users/",
    getParams := [], postParams := [], now := 0 }

/-- The administrator demoting their own account through the admin edit view. -/
def reqDemoteSelf : HttpRequest :=
  { requester := .auth adminUser0, method := "POST", path := "/accounts/users/1/edit/",
    getParams := [],
    postParams := [("email", "admin@example.com"), ("role", "USER"), ("is_active", "on")],
    now := 0 }

/-- An anonymous GET request for the user directory. -/
def reqAnonUserList : HttpRequest :=
  { requester := .anonymous, method := "GET", path := "/accounts/users/",
    getParams := [], postParams := [], now := 0 }

/-- A GET request for the user directory from the administrator. -/
def reqAdminUserList : HttpRequest :=
  { requester := .auth adminUser0, method := "GET", path := "/accounts/users/",
    getParams := [], postParams := [], now := 0 }

/-- The regular user requesting the staff dashboard. -/
def reqPlainStaffDash : HttpRequest :=
  { requester := .auth plainUser0, method := "GET", path := "/dashboard/staff/",
    getParams := [], postParams := [], now := 0 }

/-- The administrator POSTing a single-target mutation on their own id. -/
def reqAdminSelfPost : HttpRequest :=
  { requester := .auth adminUser0, method := "POST", path := "/accounts/users/1/delete/",
    getParams := [], postParams := [], now := 0 }

/-- The administrator POSTing a toggle-status on user id 3. -/
def reqAdminTogglePlain : HttpRequest :=
  { requester := .auth adminUser0, method := "POST", path := "/accounts/users/3/toggle-status/",
    getParams := [], postParams := [], now := 0 }

/-- The regular user POSTing a profile edit whose payload also carries role
and is_active values. -/
def reqPlainProfileEdit : HttpRequest :=
  { requester := .auth plainUser0, method := "POST", path := "/accounts/profile/edit/",
    getParams := [],
    postParams := [("first_name", "Eve"), ("last_name", "User"), ("phone", "123"),
                   ("department", "Ops"), ("job_title", "Clerk"), ("bio", "hi"),
                   ("role", "ADMIN"), ("is_active", "")],
    now := 0 }

/-- The stored row after the administrator demotes themself through the
admin edit view with the reqDemoteSelf payload. -/
def demotedAdmin0 : User :=
  { id := 1, email := "admin@example.com", password := "adminpass"
    firstName := "", lastName := "", role := "USER"
    isActive := true, isStaff := true, isSuperuser := true
    phone := "", department := "", jobTitle := "", bio := ""
    profilePicture := none, dateJoined := 1000, lastLogin := none }

/-- The row created by create_user for alice@example.com on an empty table. -/
def aliceUser0 : User :=
  { id := 1, email := "alice@example.com", password := "password1"
    firstName := "", lastName := "", role := "USER"
    isActive := true, isStaff := false, isSuperuser := false
    phone := "", department := "", jobTitle := "", bio := ""
    profilePicture := none, dateJoined := 50, lastLogin := none }

/-- The row created by create_user for Alice@example.com next to aliceUser0. -/
def aliceUser1 : User :=
  { id := 2, email := "Alice@example.com", password := "password2"
    firstName := "", lastName := "", role := "USER"
    isActive := true, isStaff := false, isSuperuser := false
    phone := "", department := "", jobTitle := "", bio := ""
    profilePicture := none, dateJoined := 60, lastLogin := none }

/-- ASCII-lowercased copy of a string. -/
def lowerStr (s : String) : String := String.mk (lowerList s.toList)

/-- The needle occurs, case-insensitively, as a contiguous substring of hay. -/
def lowerSub (needle hay : String) : Prop :=
  ∃ s t, lowerList hay.toList = s ++ lowerList needle.toList ++ t

/-- Orderings accepted by order_by on the embedded table: an absent
parameter, the random key '?', or an optionally '-'-prefixed column name
of the user table. -/
def supportedOrdering : Option String → Bool
  | none => true
  | some o => o == "?" || (fieldCmp (if startswith o "-" then o.drop 1 else o)).isSome

/-- The descending-date ordering test used by the default sort key. -/
def leDateJoined (a b : User) : Bool :=
  !(natCmp a.dateJoined b.dateJoined == Ordering.lt)

deriving instance DecidableEq for Except

theorem listStarts_iff (p l : List Char) : listStarts p l = true ↔ ∃ t, l = p ++ t := by
  induction p generalizing l with
  | nil => simp [listStarts]
  | cons c cs ih =>
    cases l with
    | nil => simp [listStarts]
    | cons d ds =>
      constructor
      · intro h
        have h1 : c = d ∧ listStarts cs ds = true := by
          simpa [listStarts, Bool.and_eq_true, beq_iff_eq] using h
        rcases (ih ds).mp h1.2 with ⟨t, ht⟩
        exact ⟨t, by simp [h1.1, ht]⟩
      · rintro ⟨t, ht⟩
        have h1 : d = c ∧ ds = cs ++ t := by simpa using ht
        have h2 : listStarts cs ds = true := (ih ds).mpr ⟨t, h1.2⟩
        simp [listStarts, h1.1, h2]

theorem listHas_iff (n h : List Char) : listHas n h = true ↔ ∃ s t, h = s ++ n ++ t := by
  induction h with
  | nil =>
    rw [listHas, listStarts_iff]
    constructor
    · rintro ⟨t, ht⟩
      exact ⟨[], t, by simpa using ht⟩
    · rintro ⟨s, t, ht⟩
      have h0 : s ++ n ++ t = [] := ht.symm
      rcases List.append_eq_nil.mp h0 with ⟨h1, h2⟩
      rcases List.append_eq_nil.mp h1 with ⟨h3, h4⟩
      exact ⟨[], by simp [h4]⟩
  | cons c cs ih =>
    rw [listHas, Bool.or_eq_true, listStarts_iff, ih]
    constructor
    · rintro (⟨t, ht⟩ | ⟨s, t, ht⟩)
      · exact ⟨[], t, by simpa using ht⟩
      · exact ⟨c :: s, t, by simp [ht]⟩
    · rintro ⟨s, t, ht⟩
      cases s with
      | nil => exact Or.inl ⟨t, by simpa using ht⟩
      | cons d ds =>
        have h1 : c = d ∧ cs = ds ++ n ++ t := by simpa using ht
        exact Or.inr ⟨ds, t, h1.2⟩

theorem icontains_iff (needle hay : String) :
    icontains needle hay = true ↔ lowerSub needle hay := by
  rw [icontains, listHas_iff]
  exact Iff.rfl

theorem searchMatches_iff (s : String) (u : User) :
    searchMatches s u = true ↔
      (lowerSub s u.email ∨ lowerSub s u.firstName ∨
       lowerSub s u.lastName ∨ lowerSub s u.department) := by
  simp [searchMatches, Bool.or_eq_true, icontains_iff]
  tauto

theorem lowerSub_empty (hay : String) : lowerSub "" hay :=
  ⟨[], lowerList hay.toList, rfl⟩

theorem mem_insertLe (le : User → User → Bool) (u x : User) (l : List User) :
    x ∈ insertLe le u l ↔ x = u ∨ x ∈ l := by
  induction l with
  | nil => simp [insertLe]
  | cons v vs ih =>
    by_cases h : le u v = true
    · simp [insertLe, h]
    · simp [insertLe, h, ih]
      tauto

theorem perm_insertLe (le : User → User → Bool) (u : User) (l : List User) :
    (insertLe le u l).Perm (u :: l) := by
  induction l with
  | nil => exact List.Perm.refl _
  | cons v vs ih =>
    by_cases h : le u v = true
    · simp only [insertLe]
      rw [if_pos h]
    · simp only [insertLe]
      rw [if_neg h]
      exact (ih.cons v).trans (List.Perm.swap u v vs)

theorem perm_sortByLe (le : User → User → Bool) (l : List User) :
    (sortByLe le l).Perm l := by
  induction l with
  | nil => exact List.Perm.refl _
  | cons u us ih =>
    exact (perm_insertLe le u (sortByLe le us)).trans (ih.cons u)

theorem mem_sortByLe (le : User → User → Bool) (x : User) (l : List User) :
    x ∈ sortByLe le l ↔ x ∈ l :=
  (perm_sortByLe le l).mem_iff

theorem pairwise_insertLe (le : User → User → Bool)
    (htot : ∀ a b, le a b = true ∨ le b a = true)
    (htr : ∀ a b c, le a b = true → le b c = true → le a c = true)
    (u : User) (l : List User) (hl : l.Pairwise (fun a b => le a b = true)) :
    (insertLe le u l).Pairwise (fun a b => le a b = true) := by
  induction l with
  | nil => simp [insertLe]
  | cons v vs ih =>
    rcases List.pairwise_cons.mp hl with ⟨hv, hvs⟩
    by_cases h : le u v = true
    · simp only [insertLe, h, if_true]
      refine List.Pairwise.cons ?_ hl
      intro x hx
      rcases List.mem_cons.mp hx with rfl | hxv
      · exact h
      · exact htr u v x h (hv x hxv)
    · have h' : le v u = true := (htot u v).resolve_left h
      simp only [insertLe, h]
      rw [if_neg (by simp [h])]
      refine List.Pairwise.cons ?_ (ih hvs)
      intro x hx
      rcases (mem_insertLe le u x vs).mp hx with rfl | hxv
      · exact h'
      · exact hv x hxv

theorem pairwise_sortByLe (le : User → User → Bool)
    (htot : ∀ a b, le a b = true ∨ le b a = true)
    (htr : ∀ a b c, le a b = true → le b c = true → le a c = true)
    (l : List User) :
    (sortByLe le l).Pairwise (fun a b => le a b = true) := by
  induction l with
  | nil => simp [sortByLe]
  | cons u us ih => exact pairwise_insertLe le htot htr u (sortByLe le us) ih

theorem leDateJoined_iff (a b : User) :
    leDateJoined a b = true ↔ b.dateJoined ≤ a.dateJoined := by
  rw [leDateJoined, natCmp]
  rcases Nat.lt_trichotomy a.dateJoined b.dateJoined with h | h | h
  · rw [if_pos h]
    exact iff_of_false (by decide) (by omega)
  · rw [if_neg (by omega), if_neg (by omega)]
    exact iff_of_true (by decide) (by omega)
  · rw [if_neg (by omega), if_pos h]
    exact iff_of_true (by decide) (by omega)

theorem leDateJoined_total (a b : User) :
    leDateJoined a b = true ∨ leDateJoined b a = true := by
  rcases Nat.le_total b.dateJoined a.dateJoined with h | h
  · exact Or.inl ((leDateJoined_iff a b).mpr h)
  · exact Or.inr ((leDateJoined_iff b a).mpr h)

theorem leDateJoined_trans (a b c : User) (h1 : leDateJoined a b = true)
    (h2 : leDateJoined b c = true) : leDateJoined a c = true :=
  (leDateJoined_iff a c).mpr
    (le_trans ((leDateJoined_iff b c).mp h2) ((leDateJoined_iff a b).mp h1))

theorem lookupUser_cons (v : User) (vs : List User) (pk : Nat) :
    lookupUser (v :: vs) pk = if v.id = pk then some v else lookupUser vs pk := by
  by_cases h : v.id = pk
  · rw [lookupUser, List.find?_cons_of_pos _ (by simp [h]), if_pos h]
  · rw [lookupUser, List.find?_cons_of_neg _ (by simp [h]), if_neg h]
    rfl

theorem lookupUser_id (store : Store) (pk : Nat) (u : User)
    (h : lookupUser store pk = some u) : u.id = pk := by
  induction store with
  | nil => simp [lookupUser] at h
  | cons v vs ih =>
    rw [lookupUser_cons] at h
    by_cases hv : v.id = pk
    · rw [if_pos hv] at h
      exact (Option.some.inj h) ▸ hv
    · rw [if_neg hv] at h
      exact ih h

theorem saveUser_cons (v : User) (vs : List User) (w : User) :
    saveUser (v :: vs) w = (if v.id = w.id then w else v) :: saveUser vs w := by
  rw [saveUser, List.map_cons]
  rfl

theorem lookupUser_saveUser (store : Store) (pk : Nat) (u w : User)
    (h : lookupUser store pk = some u) (hw : w.id = u.id) :
    lookupUser (saveUser store w) pk = some w := by
  have hu : u.id = pk := lookupUser_id store pk u h
  induction store with
  | nil => simp [lookupUser] at h
  | cons v vs ih =>
    rw [lookupUser_cons] at h
    by_cases hv : v.id = pk
    · rw [if_pos hv] at h
      have hveq : v = u := Option.some.inj h
      rw [saveUser_cons, if_pos (by rw [hveq, ← hw])]
      rw [lookupUser_cons, if_pos (by rw [hw, hu])]
    · rw [if_neg hv] at h
      rw [saveUser_cons, if_neg (fun hc => hv (by rw [hc, hw, hu]))]
      rw [lookupUser_cons, if_neg hv]
      exact ih h

theorem mem_saveUser_of_ne (store : Store) (w v : User)
    (hv : v ∈ store) (hne : v.id ≠ w.id) : v ∈ saveUser store w := by
  rw [saveUser]
  have hfix : (fun x => if x.id = w.id then w else x) v = v := by simp [hne]
  exact hfix ▸ List.mem_map_of_mem _ hv

theorem length_saveUser (store : Store) (w : User) :
    (saveUser store w).length = store.length := by
  rw [saveUser, List.length_map]

/-- C6: on each authenticated request the last-authentication timestamp is
set to now exactly when it is absent or more than one hour (3600 s) old and
is otherwise unchanged; two requests 10 minutes apart keep the first value
and a request 61 minutes later updates it. -/
theorem claim_C6_last_login_throttle (now t t0 : Nat) :
    update_last_login now none = some now
    ∧ (now - t ≤ 3600 → update_last_login now (some t) = some t)
    ∧ (3600 < now - t → update_last_login now (some t) = some now)
    ∧ update_last_login (t0 + 600) (some t0) = some t0
    ∧ update_last_login (t0 + 3660) (some t0) = some (t0 + 3660) := by
  refine ⟨rfl, fun h => ?_, fun h => ?_, ?_, ?_⟩
  · rw [update_last_login, if_neg (by omega)]
  · rw [update_last_login, if_pos h]
  · rw [update_last_login, if_neg (by omega)]
  · rw [update_last_login, if_pos (by omega)]

theorem claim_C6_witness :
    update_last_login 700 (some 100) = some 100
    ∧ update_last_login 3761 (some 100) = some 3761 :=
  ⟨(claim_C6_last_login_throttle 700 100 0).2.1 (by decide),
   (claim_C6_last_login_throttle 3761 100 0).2.2.1 (by decide)⟩

/-- C1: every admin user-management operation is admin_required-wrapped, and
the wrapped handler runs exactly for an authenticated ADMIN; an
authenticated non-ADMIN gets the denial message and a redirect to the
dashboard router, and an anonymous caller is sent to the login flow with
the requested path preserved as the post-login destination. -/
theorem claim_C1_admin_guard (view : User → ViewFn) (req : HttpRequest) (store : Store) :
    (∀ u, req.requester = .auth u → u.role = "ADMIN" →
      admin_required view req store = view u req store)
    ∧ (∀ u, req.requester = .auth u → u.role ≠ "ADMIN" →
      admin_required view req store =
        (store, Response.redirect "dashboard:router" [mError "Administrator access required."]))
    ∧ (req.requester = .anonymous →
      admin_required view req store = (store, Response.redirectToLogin req.path))
    ∧ user_list = admin_required user_list_inner
    ∧ user_create = admin_required user_create_inner
    ∧ (∀ pk, user_detail pk = admin_required (user_detail_inner pk))
    ∧ (∀ pk, user_update pk = admin_required (user_update_inner pk))
    ∧ (∀ pk, user_delete pk = admin_required (fun a => require_POST (user_delete_inner pk a)))
    ∧ (∀ pk, user_toggle_status pk =
        admin_required (fun a => require_POST (user_toggle_status_inner pk a))) := by
  refine ⟨?_, ?_, ?_, rfl, rfl, fun _ => rfl, fun _ => rfl, fun _ => rfl, fun _ => rfl⟩
  · intro u hu hrole
    rw [admin_required, hu]
    simp [hrole]
  · intro u hu hrole
    rw [admin_required, hu]
    simp [hrole]
  · intro hu
    rw [admin_required, hu]

theorem claim_C1_witness :
    admin_required user_list_inner reqAdminUserList [adminUser0] =
      user_list_inner adminUser0 reqAdminUserList [adminUser0]
    ∧ admin_required user_list_inner reqStaffUserList [adminUser0, staffUser0] =
      ([adminUser0, staffUser0],
       Response.redirect "dashboard:router" [mError "Administrator access required."])
    ∧ admin_required user_list_inner reqAnonUserList [] =
      ([], Response.redirectToLogin "/accounts/users/") :=
  ⟨(claim_C1_admin_guard user_list_inner reqAdminUserList [adminUser0]).1
      adminUser0 rfl (by decide),
   (claim_C1_admin_guard user_list_inner reqStaffUserList [adminUser0, staffUser0]).2.1
      staffUser0 rfl (by decide),
   (claim_C1_admin_guard user_list_inner reqAnonUserList []).2.2.1 rfl⟩

/-- C3: the path-pattern middleware does not enforce the decorator policy on
the served routes: its prefixes (users, analytics, staff) never match the
mounted paths (accounts/users, dashboard/staff), so a STAFF request for the
user directory and a USER request for the staff dashboard are forwarded by
the middleware while the decorators deny both. -/
theorem claim_C3_code_bug :
    roleBasedAccessMiddleware reqStaffUserList = MwDecision.forward
    ∧ (user_list reqStaffUserList [adminUser0, staffUser0]).2 =
        Response.redirect "dashboard:router" [mError "Administrator access required."]
    ∧ roleBasedAccessMiddleware reqPlainStaffDash = MwDecision.forward
    ∧ (staff_dashboard reqPlainStaffDash [plainUser0]).2 =
        Response.redirect "dashboard:router" [mError "Staff access required."] := by
  refine ⟨by decide, by decide, by decide, by decide⟩

/-- C2: refutation at a concrete input: with the store holding only the
acting ADMIN, a POST of the admin edit view on the ADMIN's own id with role
USER in the payload demotes the record and reports success instead of
leaving it unchanged with an error notice. -/
theorem claim_C2_counterexample :
    adminUser0.role = "ADMIN"
    ∧ user_update 1 reqDemoteSelf [adminUser0] =
        ([demotedAdmin0],
         Response.redirect "accounts:user_list"
           [mSuccess "User admin@example.com updated successfully."])
    ∧ demotedAdmin0.role = "USER" := by
  refine ⟨rfl, by decide, rfl⟩

/-- C2 (amended): for the delete and toggle-status operations a self-target
leaves the store unchanged and produces an error notice with a redirect to
the user list; the admin edit view carries no such self-protection. -/
theorem claim_C2_amended (store : Store) (req : HttpRequest) (actor u : User) (pk : Nat) :
    req.requester = .auth actor → actor.role = "ADMIN" → req.method = "POST" →
    lookupUser store pk = some u → u.id = actor.id →
    user_delete pk req store =
      (store, Response.redirect "accounts:user_list"
        [mError "You cannot delete your own account."])
    ∧ user_toggle_status pk req store =
      (store, Response.redirect "accounts:user_list"
        [mError "You cannot deactivate your own account."]) := by
  intro hreq hrole hm hfind hid
  constructor
  · simp only [user_delete, admin_required, hreq, hrole]
    rw [if_pos trivial]
    simp only [require_POST]
    rw [if_pos hm]
    simp only [user_delete_inner, hfind]
    rw [if_pos hid]
  · simp only [user_toggle_status, admin_required, hreq, hrole]
    rw [if_pos trivial]
    simp only [require_POST]
    rw [if_pos hm]
    simp only [user_toggle_status_inner, hfind]
    rw [if_pos hid]

theorem claim_C2_witness :
    user_delete 1 reqAdminSelfPost [adminUser0] =
      ([adminUser0], Response.redirect "accounts:user_list"
        [mError "You cannot delete your own account."])
    ∧ user_toggle_status 1 reqAdminSelfPost [adminUser0] =
      ([adminUser0], Response.redirect "accounts:user_list"
        [mError "You cannot deactivate your own account."]) :=
  claim_C2_amended [adminUser0] reqAdminSelfPost adminUser0 adminUser0 1
    rfl rfl rfl (by decide) rfl

/-- C4: a login attempt with an unknown email, a wrong password, or an
inactive account is denied and creates no session; correct credentials on
an active account create a session bound to the user and, with no next
destination, redirect to the dashboard router, which maps ADMIN to the
admin dashboard, STAFF to the staff dashboard and any other role to the
user dashboard. -/
theorem claim_C4_login (store : Store) (email pw : String) (u : User) (rm : Bool) :
    (store.find? (fun v => v.email == email) = none →
      login_view_post store email pw rm none =
        { session := none, expireAtBrowserClose := false, redirectTo := none })
    ∧ (store.find? (fun v => v.email == email) = some u →
        ((u.password ≠ pw →
          login_view_post store email pw rm none =
            { session := none, expireAtBrowserClose := false, redirectTo := none })
        ∧ (u.isActive = false →
          login_view_post store email pw rm none =
            { session := none, expireAtBrowserClose := false, redirectTo := none })
        ∧ (u.password = pw → u.isActive = true →
          login_view_post store email pw rm none =
            { session := some u.id, expireAtBrowserClose := !rm,
              redirectTo := some "dashboard:router" }
          ∧ (u.role = "ADMIN" → dashboard_router u = "dashboard:admin")
          ∧ (u.role = "STAFF" → dashboard_router u = "dashboard:staff")
          ∧ (u.role ≠ "ADMIN" → u.role ≠ "STAFF" →
              dashboard_router u = "dashboard:user")))) := by
  constructor
  · intro hfind
    simp only [login_view_post, loginFormClean, authenticate, hfind]
  · intro hfind
    refine ⟨?_, ?_, ?_⟩
    · intro hpw
      simp only [login_view_post, loginFormClean, authenticate, hfind]
      rw [if_neg (by tauto)]
    · intro hact
      simp only [login_view_post, loginFormClean, authenticate, hfind]
      rw [if_neg (by simp [hact])]
    · intro hpw hact
      refine ⟨?_, ?_, ?_, ?_⟩
      · simp [login_view_post, loginFormClean, authenticate, hfind, hpw, hact]
      · intro hr
        rw [dashboard_router, if_pos hr]
      · intro hr
        rw [dashboard_router, if_neg (by simp [hr]), if_pos hr]
      · intro h1 h2
        rw [dashboard_router, if_neg h1, if_neg h2]

theorem claim_C4_witness :
    login_view_post [adminUser0] "admin@example.com" "wrongpass" false none =
      { session := none, expireAtBrowserClose := false, redirectTo := none }
    ∧ login_view_post [adminUser0] "admin@example.com" "adminpass" true none =
      { session := some adminUser0.id, expireAtBrowserClose := !true,
        redirectTo := some "dashboard:router" }
    ∧ dashboard_router adminUser0 = "dashboard:admin" := by
  have h := claim_C4_login [adminUser0] "admin@example.com" "wrongpass" adminUser0 false
  have h2 := claim_C4_login [adminUser0] "admin@example.com" "adminpass" adminUser0 true
  refine ⟨(h.2 (by decide)).1 (by decide), ?_, ?_⟩
  · exact ((h2.2 (by decide)).2.2 rfl rfl).1
  · exact ((h2.2 (by decide)).2.2 rfl rfl).2.1 rfl

/-- C5: refutation at a concrete input: after creating alice@example.com,
create_user accepts Alice@example.com (normalization lowercases only the
domain and the unique check is exact), leaving two stored users whose
emails are equal up to letter case. -/
theorem claim_C5_counterexample :
    create_user [] 50 "alice@example.com" "password1" none none =
      .ok ([aliceUser0], aliceUser0)
    ∧ create_user [aliceUser0] 60 "Alice@example.com" "password2" none none =
      .ok ([aliceUser0, aliceUser1], aliceUser1)
    ∧ aliceUser0.email ≠ aliceUser1.email
    ∧ lowerStr aliceUser0.email = lowerStr aliceUser1.email := by
  refine ⟨by decide, by decide, by decide, by decide⟩

/-- C5 (amended): email uniqueness is global and exact (case-sensitive) on
the stored string: creating a user whose normalized email is already stored
fails, and creation preserves pairwise-distinct stored emails. -/
theorem claim_C5_amended (store : Store) (now : Nat) (email pw : String)
    (role : Option String) (isActive : Option Bool) :
    (∀ u, u ∈ store → u.email = normalize_email email →
      ∃ e, create_user store now email pw role isActive = .error e)
    ∧ (∀ store' u', store.Pairwise (fun a b => a.email ≠ b.email) →
        create_user store now email pw role isActive = .ok (store', u') →
        store'.Pairwise (fun a b => a.email ≠ b.email)) := by
  constructor
  · intro u hu he
    simp only [create_user]
    by_cases h0 : email = ""
    · rw [if_pos h0]
      exact ⟨_, rfl⟩
    · rw [if_neg h0]
      rw [if_pos (List.any_eq_true.mpr ⟨u, hu, by simp [he]⟩)]
      exact ⟨_, rfl⟩
  · intro store' u' hpw hok
    simp only [create_user] at hok
    by_cases h0 : email = ""
    · rw [if_pos h0] at hok
      cases hok
    · rw [if_neg h0] at hok
      by_cases h1 : store.any (fun v => v.email == normalize_email email) = true
      · rw [if_pos h1] at hok
        cases hok
      · rw [if_neg h1] at hok
        obtain ⟨h2, h3⟩ := Prod.mk.inj (Except.ok.inj hok)
        rw [← h2]
        rw [List.pairwise_append]
        refine ⟨hpw, List.pairwise_singleton _ _, ?_⟩
        intro a ha b hb
        have hb1 : b.email = normalize_email email := by
          rcases List.mem_singleton.mp hb with rfl
          rfl
        rw [hb1]
        have h1' : ∀ v ∈ store, ¬ v.email = normalize_email email := by
          intro v hv hveq
          exact h1 (List.any_eq_true.mpr ⟨v, hv, by simp [hveq]⟩)
        exact h1' a ha

theorem claim_C5_witness :
    (∃ e, create_user [aliceUser0] 70 "alice@example.com" "pw3" none none = .error e)
    ∧ ([aliceUser0, aliceUser1] : Store).Pairwise (fun a b => a.email ≠ b.email) := by
  have h := claim_C5_amended [aliceUser0] 70 "alice@example.com" "pw3" none none
  have h2 := claim_C5_amended [aliceUser0] 60 "Alice@example.com" "password2" none none
  refine ⟨h.1 aliceUser0 (by decide) (by decide), ?_⟩
  exact h2.2 [aliceUser0, aliceUser1] aliceUser1 (by decide) (by decide)

/-- C9: a POST of the profile self-update with any payload rewrites only the
acting user's row, and the saved record keeps the actor's id, email,
password, role, active status, flags and timestamps no matter what keys
(including role and is_active) the payload carries. -/
theorem claim_C9_profile_frame (store : Store) (actor : User) (req : HttpRequest) :
    req.requester = .auth actor → req.method = "POST" →
    userUpdateForm_isValid req.postParams = true →
    profile_update req store =
      (saveUser store (userUpdateForm_save req.postParams actor),
       Response.redirect "accounts:profile"
         [mSuccess "Your profile has been updated successfully."])
    ∧ (userUpdateForm_save req.postParams actor).id = actor.id
    ∧ (userUpdateForm_save req.postParams actor).email = actor.email
    ∧ (userUpdateForm_save req.postParams actor).password = actor.password
    ∧ (userUpdateForm_save req.postParams actor).role = actor.role
    ∧ (userUpdateForm_save req.postParams actor).isActive = actor.isActive
    ∧ (userUpdateForm_save req.postParams actor).isStaff = actor.isStaff
    ∧ (userUpdateForm_save req.postParams actor).isSuperuser = actor.isSuperuser
    ∧ (userUpdateForm_save req.postParams actor).dateJoined = actor.dateJoined
    ∧ (userUpdateForm_save req.postParams actor).lastLogin = actor.lastLogin
    ∧ (∀ v ∈ store, v.id ≠ actor.id → v ∈ (profile_update req store).1)
    ∧ (profile_update req store).1.length = store.length := by
  intro hreq hm hvalid
  have hmain : profile_update req store =
      (saveUser store (userUpdateForm_save req.postParams actor),
       Response.redirect "accounts:profile"
         [mSuccess "Your profile has been updated successfully."]) := by
    simp only [profile_update, login_required, profile_update_inner, hreq]
    rw [if_pos hm, if_pos hvalid]
  refine ⟨hmain, rfl, rfl, rfl, rfl, rfl, rfl, rfl, rfl, rfl, ?_, ?_⟩
  · intro v hv hne
    rw [hmain]
    exact mem_saveUser_of_ne store _ v hv hne
  · rw [hmain]
    exact length_saveUser store _

theorem claim_C9_witness :
    profile_update reqPlainProfileEdit [plainUser0] =
      (saveUser [plainUser0] (userUpdateForm_save reqPlainProfileEdit.postParams plainUser0),
       Response.redirect "accounts:profile"
         [mSuccess "Your profile has been updated successfully."])
    ∧ (userUpdateForm_save reqPlainProfileEdit.postParams plainUser0).role = "USER"
    ∧ (userUpdateForm_save reqPlainProfileEdit.postParams plainUser0).isActive = true := by
  have h := claim_C9_profile_frame [plainUser0] plainUser0 reqPlainProfileEdit
    rfl rfl (by decide)
  exact ⟨h.1, by decide, by decide⟩

/-- C10: toggle-status by an ADMIN on another user flips exactly the
target's active flag: the store is rewritten with the target's record
negated on is_active only, every other row is kept, and applying the
operation twice restores the target's original record. -/
theorem claim_C10_toggle_involution (store : Store) (req : HttpRequest)
    (actor u : User) (pk : Nat) :
    req.requester = .auth actor → actor.role = "ADMIN" → req.method = "POST" →
    lookupUser store pk = some u → u.id ≠ actor.id →
    user_toggle_status pk req store =
      (saveUser store { u with isActive := !u.isActive },
       Response.redirect "accounts:user_list"
         [mSuccess ("User " ++ u.email ++ " has been "
            ++ (if !u.isActive then "activated" else "deactivated") ++ ".")])
    ∧ lookupUser (user_toggle_status pk req store).1 pk =
        some { u with isActive := !u.isActive }
    ∧ (∀ v ∈ store, v.id ≠ u.id → v ∈ (user_toggle_status pk req store).1)
    ∧ (user_toggle_status pk req store).1.length = store.length
    ∧ lookupUser (user_toggle_status pk req
        (user_toggle_status pk req store).1).1 pk = some u := by
  intro hreq hrole hm hfind hne
  have hmain : user_toggle_status pk req store =
      (saveUser store { u with isActive := !u.isActive },
       Response.redirect "accounts:user_list"
         [mSuccess ("User " ++ u.email ++ " has been "
            ++ (if !u.isActive then "activated" else "deactivated") ++ ".")]) := by
    simp only [user_toggle_status, admin_required, hreq, hrole]
    rw [if_pos trivial]
    simp only [require_POST]
    rw [if_pos hm]
    simp only [user_toggle_status_inner, hfind]
    rw [if_neg hne]
  have hfind1 : lookupUser (saveUser store { u with isActive := !u.isActive }) pk =
      some { u with isActive := !u.isActive } :=
    lookupUser_saveUser store pk u _ hfind rfl
  have hmain2 : user_toggle_status pk req (saveUser store { u with isActive := !u.isActive }) =
      (saveUser (saveUser store { u with isActive := !u.isActive })
         { u with isActive := !(!u.isActive) },
       Response.redirect "accounts:user_list"
         [mSuccess ("User " ++ u.email ++ " has been "
            ++ (if !(!u.isActive) then "activated" else "deactivated") ++ ".")]) := by
    simp only [user_toggle_status, admin_required, hreq, hrole]
    rw [if_pos trivial]
    simp only [require_POST]
    rw [if_pos hm]
    simp only [user_toggle_status_inner, hfind1]
    rw [if_neg hne]
  refine ⟨hmain, ?_, ?_, ?_, ?_⟩
  · rw [hmain]
    exact hfind1
  · intro v hv hvne
    rw [hmain]
    exact mem_saveUser_of_ne store _ v hv hvne
  · rw [hmain]
    exact length_saveUser store _
  · rw [hmain]
    rw [hmain2]
    have hu2 : ({ u with isActive := !(!u.isActive) } : User) = u := by
      rw [Bool.not_not]
    rw [hu2]
    exact lookupUser_saveUser _ pk { u with isActive := !u.isActive } u hfind1 rfl

theorem claim_C10_witness :
    user_toggle_status 3 reqAdminTogglePlain [adminUser0, plainUser0] =
      (saveUser [adminUser0, plainUser0] { plainUser0 with isActive := !plainUser0.isActive },
       Response.redirect "accounts:user_list"
         [mSuccess ("User " ++ plainUser0.email ++ " has been "
            ++ (if !plainUser0.isActive then "activated" else "deactivated") ++ ".")])
    ∧ lookupUser (user_toggle_status 3 reqAdminTogglePlain
        (user_toggle_status 3 reqAdminTogglePlain [adminUser0, plainUser0]).1).1 3 =
        some plainUser0 := by
  have h := claim_C10_toggle_involution [adminUser0, plainUser0] reqAdminTogglePlain
    adminUser0 plainUser0 3 rfl rfl rfl (by decide) (by decide)
  exact ⟨h.1, h.2.2.2.2⟩

theorem orderBy_default (l : List User) :
    orderBy "-date_joined" l = .ok (sortByLe leDateJoined l) := rfl

theorem orderBy_ok_of_supported (o : String) (l : List User)
    (h : supportedOrdering (some o) = true) : ∃ l', orderBy o l = .ok l' := by
  simp only [supportedOrdering, Bool.or_eq_true] at h
  by_cases hq : o = "?"
  · rw [orderBy, if_pos hq]
    exact ⟨l, rfl⟩
  · have h2 : (fieldCmp (if startswith o "-" then o.drop 1 else o)).isSome = true := by
      rcases h with h | h
      · exact absurd (by simpa using h) hq
      · exact h
    obtain ⟨cmp, hc⟩ := Option.isSome_iff_exists.mp h2
    simp only [orderBy, hc]
    rw [if_neg hq]
    exact ⟨_, rfl⟩

theorem paginate_length_le (pp : Nat) (param : Option String) (objs : List User) :
    (paginate pp param objs).objectList.length ≤ pp := by
  simp only [paginate]
  exact List.length_take_le _ _

/-- C7 (amended): with a sort key that is absent, the random key '?', or an
optionally '-'-prefixed column of the user table, every filter combination
returns without error; every returned page is the ≤10-element slice the
page number selects, next to the unfiltered counts; and with no parameters
at all the result is all users, newest-joined first, first page of size 10.
The sort key reaches order_by unvalidated, so a key that resolves to no
column — such as bogus, see the counterexample — raises a field-resolution
error rather than returning. -/
theorem claim_C7_amended (store : Store) (p : UserListParams) :
    (supportedOrdering p.ordering = true → ∃ ctx, user_list_core store p = .ok ctx)
    ∧ (∀ ctx, user_list_core store p = .ok ctx →
        ctx.pageObj.objectList.length ≤ 10
        ∧ ctx.pageObj.objectList = (ctx.allUsers.drop ((ctx.pageObj.number - 1) * 10)).take 10
        ∧ ctx.totalUsers = store.length
        ∧ ctx.activeUsers = (store.filter (fun u => u.isActive)).length
        ∧ ctx.inactiveUsers = (store.filter (fun u => !u.isActive)).length)
    ∧ (∃ ctx, user_list_core store
        { search := none, role := none, status := none, ordering := none, page := none } =
          .ok ctx
        ∧ ctx.allUsers.Perm store
        ∧ ctx.allUsers.Pairwise (fun a b => b.dateJoined ≤ a.dateJoined)
        ∧ ctx.pageObj.number = 1
        ∧ ctx.pageObj.objectList = ctx.allUsers.take 10) := by
  refine ⟨?_, ?_, ?_⟩
  · intro hsup
    cases hp : p.ordering with
    | none =>
      simp only [user_list_core, hp, Option.getD, orderBy_default]
      exact ⟨_, rfl⟩
    | some o =>
      rw [hp] at hsup
      obtain ⟨l', hl'⟩ := orderBy_ok_of_supported o (afterFilters store p) hsup
      simp only [user_list_core, hp, Option.getD, hl']
      exact ⟨_, rfl⟩
  · intro ctx hctx
    simp only [user_list_core] at hctx
    split at hctx
    · cases hctx
    · have h2 := Except.ok.inj hctx
      subst h2
      exact ⟨paginate_length_le 10 p.page _, rfl, rfl, rfl, rfl⟩
  · refine ⟨_, rfl, ?_, ?_, rfl, rfl⟩
    · exact perm_sortByLe leDateJoined store
    · exact (pairwise_sortByLe leDateJoined leDateJoined_total leDateJoined_trans store).imp
        (fun h => (leDateJoined_iff _ _).mp h)

theorem claim_C7_witness :
    (∃ ctx, user_list_core [adminUser0, staffUser0]
      { search := some "ada", role := none, status := some "active",
        ordering := some "email", page := some "1" } = .ok ctx)
    ∧ (∃ ctx, user_list_core [adminUser0, staffUser0]
      { search := none, role := none, status := none,
        ordering := some "?", page := none } = .ok ctx)
    ∧ (∃ ctx, user_list_core [adminUser0, staffUser0]
      { search := none, role := none, status := none,
        ordering := some "-password", page := none } = .ok ctx) :=
  ⟨(claim_C7_amended [adminUser0, staffUser0]
      { search := some "ada", role := none, status := some "active",
        ordering := some "email", page := some "1" }).1 (by decide),
   (claim_C7_amended [adminUser0, staffUser0]
      { search := none, role := none, status := none,
        ordering := some "?", page := none }).1 (by decide),
   (claim_C7_amended [adminUser0, staffUser0]
      { search := none, role := none, status := none,
        ordering := some "-password", page := none }).1 (by decide)⟩

/-- C7: refutation of the claim as stated: a sort-key parameter that is not
a field of the user table makes the directory query raise a
field-resolution error instead of returning. -/
theorem claim_C7_counterexample :
    user_list_core [adminUser0]
      { search := none, role := none, status := none, ordering := some "bogus", page := none } =
      .error "Cannot resolve keyword bogus into field." := by decide

/-- C8: for every search term the directory query succeeds (also when the
result is empty) and its result list holds exactly the stored users for
which the term occurs case-insensitively in the email, first name, last
name or department. -/
theorem claim_C8_search_exact (store : Store) (term : String) :
    ∃ ctx, user_list_core store
      { search := some term, role := none, status := none, ordering := none, page := none } =
        .ok ctx
    ∧ ∀ u, u ∈ ctx.allUsers ↔
        (u ∈ store ∧ (lowerSub term u.email ∨ lowerSub term u.firstName ∨
          lowerSub term u.lastName ∨ lowerSub term u.department)) := by
  by_cases ht : term = ""
  · subst ht
    refine ⟨_, rfl, ?_⟩
    intro u
    rw [mem_sortByLe]
    constructor
    · intro hu
      exact ⟨hu, Or.inl (lowerSub_empty u.email)⟩
    · intro hu
      exact hu.1
  · refine ⟨{ allUsers := sortByLe leDateJoined (store.filter (fun u => searchMatches term u))
              pageObj := paginate 10 none
                (sortByLe leDateJoined (store.filter (fun u => searchMatches term u)))
              totalUsers := store.length
              activeUsers := (store.filter (fun u => u.isActive)).length
              inactiveUsers := (store.filter (fun u => !u.isActive)).length }, ?_, ?_⟩
    · simp only [user_list_core, afterFilters, roleFiltered, searchFiltered, Option.getD]
      rw [if_pos ht, orderBy_default]
      simp
    · intro u
      rw [mem_sortByLe, List.mem_filter, searchMatches_iff]

end Staffly
